import Mathlib

/-!
Verification of the seatag telemetry ingestion servers.

The repository contains several near-duplicate Express/WebSocket server
variants.  This file gives a shallow embedding of the request handlers of
the variants the claims touch:

* `SJ`  — `src/server.js` (legacy single-device variant; MongoDB; the
  try/catch wraps save, broadcast and the success response together).
* `MM`  — `src/backend/server-mongodb.js`, first (multi-device) variant:
  per-device latest-status map, inner try/catch around `location.save()`.
* `P0`  — `src/unnamed/part_000` (in-memory single-device variant with no
  top-level body validation and a resettable id counter).
* `P1`  — `src/unnamed/part_001` (in-memory multi-device variant); only its
  `GET /api/status` handler is modelled here.
* `WS`  — the WebSocket connection/broadcast handlers shared by the
  multi-device variants.

JavaScript-specific semantics (falsiness, `||` defaulting, `String.split`,
`parseFloat`, `Map.set`) are embedded by small executable helpers below.
-/

/-- Result of JavaScript `parseFloat`: either NaN or a (decimal) number.
Modelled over `Rat`; the embedding covers sign + decimal-digit forms, which
is the shape of every coordinate field this system parses. -/
inductive JsFloat where
  | nan : JsFloat
  | num : Rat → JsFloat
deriving DecidableEq

/-- Numeric value of a list of decimal digit characters. -/
def digitsVal (cs : List Char) : Nat :=
  cs.foldl (fun a c => a * 10 + (c.toNat - 48)) 0

/-- JavaScript `parseFloat`: skip leading whitespace, optional sign,
integer digits, optional fraction; no digits at all gives NaN. -/
def parseFloat (s : String) : JsFloat :=
  let cs := s.data.dropWhile (fun c => c = ' ' || c = '\t' || c = '\n' || c = '\r')
  let signAndRest : Bool × List Char :=
    match cs with
    | '-' :: rest => (true, rest)
    | '+' :: rest => (false, rest)
    | _ => (false, cs)
  let neg := signAndRest.1
  let cs1 := signAndRest.2
  let intDigits := cs1.takeWhile Char.isDigit
  let cs2 := cs1.dropWhile Char.isDigit
  let fracDigits : List Char :=
    match cs2 with
    | '.' :: rest => rest.takeWhile Char.isDigit
    | _ => []
  if intDigits.isEmpty && fracDigits.isEmpty then JsFloat.nan
  else
    let mag : Rat := (digitsVal intDigits : Rat) +
      (digitsVal fracDigits : Rat) / ((10 : Rat) ^ fracDigits.length)
    JsFloat.num (if neg then -mag else mag)

/-- Character-level splitting, the semantics of JavaScript
`String.prototype.split` with a one-character separator: the empty string
yields `[""]`, adjacent separators yield empty fields. -/
def splitChar (sep : Char) : List Char → List (List Char)
  | [] => [[]]
  | c :: cs =>
    let r := splitChar sep cs
    if c = sep then [] :: r
    else
      match r with
      | [] => [[c]]
      | h :: t => (c :: h) :: t

/-- JavaScript `s.split(sep)` for a one-character separator (the only
separators this system uses are `'|'` and `','`). -/
def jsSplit (s : String) (sep : Char) : List String :=
  (splitChar sep s.data).map String.mk

/-- JavaScript falsiness of an optional string field of a JSON body:
`undefined` and the empty string are falsy. -/
def falsy : Option String → Bool
  | none => true
  | some s => s == ""

/-- JavaScript `x || d` defaulting for an optional string `x`:
`undefined` and `""` fall back to the default. -/
def jsOr (o : Option String) (d : String) : String :=
  match o with
  | none => d
  | some s => if s == "" then d else s

/-- The trailing `uptime,rssi,snr` group parse used by the multi-device
variants: defaults `("0", "", "")`; `if (parts[6]) { split(",") ... }`. -/
def parseGroupMM (g : Option String) : String × String × String :=
  match g with
  | none => ("0", "", "")
  | some s =>
    if s == "" then ("0", "", "")
    else
      let ps := jsSplit s ','
      (jsOr (ps.get? 0) "0", jsOr (ps.get? 1) "", jsOr (ps.get? 2) "")

/-- The trailing group parse used by `src/server.js` and `part_000`:
`uptime = parts[5] || '0'`, then split only when the field contains a comma. -/
def parseGroupSJ (g : Option String) : String × String × String :=
  match g with
  | none => ("0", "", "")
  | some s =>
    if s != "" && s.data.contains ',' then
      let ps := jsSplit s ','
      (jsOr (ps.get? 0) "0", jsOr (ps.get? 1) "", jsOr (ps.get? 2) "")
    else (jsOr g "0", "", "")

/-- JavaScript `Map.set`: replace in place when the key exists (insertion
order preserved), otherwise append. -/
def mapSet {α : Type} : List (String × α) → String → α → List (String × α)
  | [], k, v => [(k, v)]
  | (k2, v2) :: rest, k, v =>
    if k2 = k then (k, v) :: rest else (k2, v2) :: mapSet rest k v

/-- JavaScript `Map.get`. -/
def mapGet {α : Type} : List (String × α) → String → Option α
  | [], _ => none
  | (k2, v2) :: rest, k => if k2 = k then some v2 else mapGet rest k

theorem mapGet_mapSet {α : Type} (m : List (String × α)) (k : String) (v : α) :
    mapGet (mapSet m k v) k = some v := by
  induction m with
  | nil => simp [mapSet, mapGet]
  | cons hd tl ih =>
    obtain ⟨k2, v2⟩ := hd
    by_cases h : k2 = k <;> simp [mapSet, mapGet, h, ih]

/-- An HTTP JSON response: status code plus the `{ success, message }` body. -/
structure Resp where
  code : Nat
  success : Bool
  message : String
deriving DecidableEq

/-- The request body of `POST /api/alerts`: `{ status, payload }`, each
field possibly absent. -/
structure Body where
  status : Option String
  payload : Option String
deriving DecidableEq

/-- The pipe-split fields of the body's payload. -/
def payloadParts (b : Body) : List String :=
  jsSplit (b.payload.getD "") '|'

/-- The device identifier field of a multi-device payload (`parts[0]`). -/
def payloadDevice (b : Body) : String :=
  ((payloadParts b).get? 0).getD ""

/-- The in-payload mode tag of a multi-device payload (`parts[1]`). -/
def payloadMode (b : Body) : Option String :=
  (payloadParts b).get? 1

/-- Whether a mode is in the persisted set (`EMERGENCY`/`NORMAL`). -/
def isPersistedMode (m : Option String) : Bool :=
  m == some "EMERGENCY" || m == some "NORMAL"

/-!
## MM — `src/backend/server-mongodb.js`, multi-device variant

`POST /api/alerts` (lines 113–233): body validation, `parts.length < 2`
device-id check, a STATUS fast path requiring ≥ 7 fields, then the main
branch requiring ≥ 7 fields which upserts the per-device latest status,
saves only EMERGENCY/NORMAL (inner try/catch around `location.save()`),
broadcasts the just-set table record and acknowledges with
`'Alert received' (+ ' and saved')`.
-/

/-- A record of the multi-device variant: both the per-device latest-status
objects and the persisted `Location` documents have this shape; `payload`
and `rawPayload` are `Option` because the JavaScript objects carry the one
or the other (or both) depending on the branch that built them. -/
structure RecMM where
  deviceId : String
  deviceName : String
  status : String
  latitude : JsFloat
  longitude : JsFloat
  speed : String
  satellites : String
  uptime : String
  rssi : String
  snr : String
  payload : Option String
  rawPayload : Option String
  timestamp : Nat
deriving DecidableEq

/-- Server state of the multi-device variant: `latestStatusByDevice` (a JS
`Map`, embedded as an insertion-ordered association list) and the persisted
alerts collection. -/
structure MMState where
  table : List (String × RecMM)
  db : List RecMM
deriving DecidableEq

def initMM : MMState := ⟨[], []⟩

/-- Outcome of one `POST /api/alerts` request against the multi-device
variant: the response, the new server state, and the records broadcast to
WebSocket clients during the request. -/
structure MMResult where
  resp : Resp
  state : MMState
  broadcasts : List RecMM
deriving DecidableEq

/-- The `statusData` object built by the STATUS fast path (lines 140–171). -/
def statusDataMM (now : Nat) (payload : String) (parts : List String) : RecMM :=
  let g := parseGroupMM (parts.get? 6)
  { deviceId := (parts.get? 0).getD ""
    deviceName := (parts.get? 0).getD ""
    status := ((parts.get? 1).getD "")
    latitude := parseFloat ((parts.get? 2).getD "")
    longitude := parseFloat ((parts.get? 3).getD "")
    speed := jsOr (parts.get? 4) "0km/h"
    satellites := jsOr (parts.get? 5) "0sat"
    uptime := g.1
    rssi := g.2.1
    snr := g.2.2
    payload := some payload
    rawPayload := none
    timestamp := now }

/-- The `alertData` object built by the main branch (lines 187–200): the
document that is saved; it carries `rawPayload` and no `payload` field. -/
def alertDataMM (now : Nat) (payload : String) (parts : List String) : RecMM :=
  { statusDataMM now payload parts with payload := none, rawPayload := some payload }

/-- `POST /api/alerts` of the multi-device variant.  `saveOk` models the
persistence collaborator: when `false`, `location.save()` rejects, which the
inner try/catch absorbs (the request continues unchanged). -/
def handleAlertMM (saveOk : Bool) (now : Nat) (b : Body) (st : MMState) : MMResult :=
  if falsy b.status || falsy b.payload then
    ⟨⟨400, false, "Invalid payload"⟩, st, []⟩
  else
    let payload := b.payload.getD ""
    let parts := jsSplit payload '|'
    if parts.length < 2 then
      ⟨⟨400, false, "Invalid payload format - missing device ID"⟩, st, []⟩
    else
      let deviceId := (parts.get? 0).getD ""
      let actualStatus := (parts.get? 1).getD ""
      if actualStatus == "STATUS" && 7 ≤ parts.length then
        let statusData := statusDataMM now payload parts
        ⟨⟨200, true, "Status updated"⟩,
         ⟨mapSet st.table deviceId statusData, st.db⟩,
         [statusData]⟩
      else if 7 ≤ parts.length then
        let alertData := alertDataMM now payload parts
        let tableRec : RecMM := { alertData with payload := some payload }
        let table2 := mapSet st.table deviceId tableRec
        let db2 :=
          if (actualStatus == "EMERGENCY" || actualStatus == "NORMAL") && saveOk then
            st.db ++ [alertData]
          else st.db
        let bcast : List RecMM :=
          match mapGet table2 deviceId with
          | some r => [r]
          | none => []
        ⟨⟨200, true,
           "Alert received" ++
             (if actualStatus == "EMERGENCY" || actualStatus == "NORMAL" then " and saved" else "")⟩,
         ⟨table2, db2⟩, bcast⟩
      else
        ⟨⟨400, false, "Invalid payload format - insufficient data"⟩, st, []⟩

/-- `GET /api/status` of the multi-device variant (lines 247–250):
`{ devices: Array.from(latestStatusByDevice.values()), count }`. -/
def getStatusMM (st : MMState) : List RecMM × Nat :=
  let allStatuses := st.table.map (fun p => p.2)
  (allStatuses, allStatuses.length)

/-- One ingestion step (healthy store) of the multi-device variant. -/
def stepMM (now : Nat) (b : Body) (st : MMState) : MMState :=
  (handleAlertMM true now b st).state

/-!
## SJ — `src/server.js` (legacy single-device variant)

`POST /api/alerts` (lines 104–171): body validation, `parts.length < 3`
format check, record construction, `latestStatus` assignment, then one
try/catch that wraps `alert.save()` **and** the broadcast **and** the
success response: a failing save jumps to the catch, which answers
`500 'Error saving alert'` without broadcasting.
-/

/-- The `alertData` object of `src/server.js` (lines 136–147). -/
structure AlertSJ where
  status : String
  latitude : JsFloat
  longitude : JsFloat
  speed : String
  satellites : String
  uptime : String
  rssi : String
  snr : String
  timestamp : Nat
  rawPayload : String
deriving DecidableEq

/-- The `latestStatus` object of `src/server.js`: `{ status, payload,
timestamp, ...alertData }`; initially it carries no alert fields, so the
spread part is an `Option`. -/
structure LatestSJ where
  status : String
  payload : String
  timestamp : Nat
  data : Option AlertSJ
deriving DecidableEq

/-- Server state of the legacy variant. -/
structure SJState where
  latestStatus : LatestSJ
  db : List AlertSJ
deriving DecidableEq

def initSJ : SJState :=
  ⟨⟨"WAITING", "Waiting for data...", 0, none⟩, []⟩

structure SJResult where
  resp : Resp
  state : SJState
  broadcasts : List LatestSJ
deriving DecidableEq

/-- The `alertData` built by `src/server.js`: `latitude = parseFloat(parts[1])`,
`longitude = parseFloat(parts[2])`, defaults on `speed`/`satellites`, and the
`parts[5]` uptime group. -/
def alertDataSJ (now : Nat) (status payload : String) (parts : List String) : AlertSJ :=
  let g := parseGroupSJ (parts.get? 5)
  { status := status
    latitude := parseFloat ((parts.get? 1).getD "")
    longitude := parseFloat ((parts.get? 2).getD "")
    speed := jsOr (parts.get? 3) "0km/h"
    satellites := jsOr (parts.get? 4) "0sat"
    uptime := g.1
    rssi := g.2.1
    snr := g.2.2
    timestamp := now
    rawPayload := payload }

/-- `POST /api/alerts` of `src/server.js`.  `saveOk = false` models a
rejected `alert.save()`: control moves to the catch block after
`latestStatus` was already reassigned, so the request ends with a 500 and
no broadcast. -/
def handleAlertSJ (saveOk : Bool) (now : Nat) (b : Body) (st : SJState) : SJResult :=
  if falsy b.status || falsy b.payload then
    ⟨⟨400, false, "Invalid payload"⟩, st, []⟩
  else
    let status := b.status.getD ""
    let payload := b.payload.getD ""
    let parts := jsSplit payload '|'
    if parts.length < 3 then
      ⟨⟨400, false, "Invalid format"⟩, st, []⟩
    else
      let alertData := alertDataSJ now status payload parts
      let latest2 : LatestSJ := ⟨status, payload, now, some alertData⟩
      if status == "EMERGENCY" || status == "NORMAL" then
        if saveOk then
          ⟨⟨200, true, "Alert processed"⟩, ⟨latest2, st.db ++ [alertData]⟩, [latest2]⟩
        else
          ⟨⟨500, false, "Error saving alert"⟩, ⟨latest2, st.db⟩, []⟩
      else
        ⟨⟨200, true, "Alert processed"⟩, ⟨latest2, st.db⟩, [latest2]⟩

/-!
## P0 — `src/unnamed/part_000` (in-memory single-device variant)

`POST /api/alerts` (lines 52–111) reads `{ status, payload }` and calls
`payload.split('|')` with **no** prior validation: an absent payload makes
the handler throw `TypeError` (Express answers the request with an error,
not a 400 rejection).  Persisted alerts get `_id` from `locationIdCounter`,
which `DELETE /api/alerts` (lines 144–149) resets to 1.
-/

/-- A persisted alert of the in-memory variant (lines 73–85); `_id` is the
stringified value of `locationIdCounter`.  `status` is `Option` because the
unvalidated body field may be `undefined`. -/
structure AlertP0 where
  _id : String
  status : Option String
  latitude : JsFloat
  longitude : JsFloat
  speed : String
  satellites : String
  uptime : String
  rssi : String
  snr : String
  timestamp : Nat
  rawPayload : String
deriving DecidableEq

/-- Server state of `part_000`: the in-memory `locations` array and the id
counter. -/
structure P0State where
  locations : List AlertP0
  locationIdCounter : Nat
deriving DecidableEq

def initP0 : P0State := ⟨[], 1⟩

/-- Outcome of a request against `part_000`: either a JSON response or an
uncaught exception thrown inside the handler. -/
inductive P0Out where
  | resp : Resp → P0Out
  | thrownTypeError : P0Out
deriving DecidableEq

structure P0Result where
  out : P0Out
  state : P0State
  broadcasts : List AlertP0
deriving DecidableEq

/-- `POST /api/alerts` of `part_000`.  With `payload` absent the very first
use, `payload.split('|')`, throws `TypeError` — there is no body validation
in this variant.  When `parts.length >= 3`, `alertData` is built (consuming
one id from the counter whether or not the record is kept) and pushed onto
`locations` only for EMERGENCY/NORMAL. -/
def handleAlertP0 (now : Nat) (b : Body) (st : P0State) : P0Result :=
  match b.payload with
  | none => ⟨P0Out.thrownTypeError, st, []⟩
  | some payload =>
    let parts := jsSplit payload '|'
    if 3 ≤ parts.length then
      let g := parseGroupSJ (parts.get? 5)
      let alertData : AlertP0 :=
        { _id := toString st.locationIdCounter
          status := b.status
          latitude := parseFloat ((parts.get? 1).getD "")
          longitude := parseFloat ((parts.get? 2).getD "")
          speed := jsOr (parts.get? 3) "0km/h"
          satellites := jsOr (parts.get? 4) "0sat"
          uptime := g.1
          rssi := g.2.1
          snr := g.2.2
          timestamp := now
          rawPayload := payload }
      let saved := b.status == some "EMERGENCY" || b.status == some "NORMAL"
      let locations2 := if saved then st.locations ++ [alertData] else st.locations
      ⟨P0Out.resp ⟨200, true,
          "Alert received" ++ (if saved then " and saved" else "")⟩,
       ⟨locations2, st.locationIdCounter + 1⟩,
       [alertData]⟩
    else
      ⟨P0Out.resp ⟨400, false, "Invalid payload format"⟩, st, []⟩

/-- `DELETE /api/alerts` of `part_000` (lines 144–149): clears `locations`
and resets `locationIdCounter` to 1. -/
def clearAlertsP0 (_st : P0State) : Resp × P0State :=
  (⟨200, true, "All alerts cleared"⟩, ⟨[], 1⟩)

/-!
## P1 — `src/unnamed/part_001`, `GET /api/status`

This multi-device variant declares only `latestStatusByDevice` and
`locations`, yet its `GET /api/status` handler (lines 178–180) is
`res.json(latestStatus)` — the identifier `latestStatus` is not defined
anywhere in the module, so every request to this endpoint throws
`ReferenceError` instead of producing a JSON response.
-/

/-- Outcome of `GET /api/status` against `part_001`. -/
inductive P1StatusOut where
  | ok : List RecMM → Nat → P1StatusOut
  | referenceError : P1StatusOut
deriving DecidableEq

/-- `GET /api/status` of `part_001`: the body evaluates the undeclared
identifier `latestStatus`, so execution throws `ReferenceError` for every
state of the server — no branch can return the device table. -/
def getStatusP1 (_table : List (String × RecMM)) : P1StatusOut :=
  P1StatusOut.referenceError

/-!
## WS — WebSocket subscriber registry of the multi-device variants

`wss.on('connection')` sends the new client one message per entry of
`latestStatusByDevice` (in `Map` iteration = insertion order);
`broadcast(data)` sends `data` to every client with `readyState === 1`.
-/

/-- A connected WebSocket client: its transport state and the messages sent
to it so far, in order. -/
structure WsClient where
  readyState : Nat
  inbox : List RecMM
deriving DecidableEq

/-- The set of currently-connected clients (`wss.clients`). -/
structure WsState where
  clients : List WsClient
deriving DecidableEq

/-- `broadcast(data)`: deliver to every client whose `readyState` is OPEN. -/
def wsBroadcast (st : WsState) (r : RecMM) : WsState :=
  ⟨st.clients.map fun c =>
    if c.readyState = 1 then { c with inbox := c.inbox ++ [r] } else c⟩

/-- `wss.on('connection')`: the new (open) client is added and immediately
receives one message per device currently in the table. -/
def wsConnect (table : List (String × RecMM)) (st : WsState) : WsState :=
  ⟨st.clients ++ [⟨1, table.map (fun p => p.2)⟩]⟩

/-!
## Helper lemmas
-/

/-- A payload whose second pipe-field exists has at least two fields. -/
theorem mode_some_len (b : Body) (s : String) (h : payloadMode b = some s) :
    2 ≤ (jsSplit (b.payload.getD "") '|').length := by
  simp only [payloadMode, payloadParts] at h
  by_contra hlt
  push_neg at hlt
  have hnone : (jsSplit (b.payload.getD "") '|').get? 1 = none :=
    List.get?_eq_none.mpr (by omega)
  rw [hnone] at h
  exact Option.noConfusion h

/-- A non-persisted in-payload mode (anything but EMERGENCY/NORMAL) never
changes the persisted collection, whatever the store does. -/
theorem db_unchanged_nonpersisted (saveOk : Bool) (now : Nat) (b : Body) (st : MMState)
    (h : isPersistedMode (payloadMode b) = false) :
    (handleAlertMM saveOk now b st).state.db = st.db := by
  simp only [isPersistedMode, payloadMode, payloadParts, Bool.or_eq_false_iff,
    beq_eq_false_iff_ne, ne_eq] at h
  unfold handleAlertMM
  dsimp only
  split
  · rfl
  split
  · rfl
  split
  · rfl
  split
  · show (if _ then _ else st.db) = st.db
    split
    · rename_i hcond
      cases hp : (jsSplit (b.payload.getD "") '|').get? 1 <;> simp_all
      omega
    · rfl
  · rfl

/-- A successful ingestion of a persisted-mode message appends exactly the
decoded `alertData` document to the persisted collection. -/
theorem db_appended_persisted (now : Nat) (b : Body) (st : MMState)
    (hm : isPersistedMode (payloadMode b) = true)
    (hsucc : (handleAlertMM true now b st).resp.success = true) :
    (handleAlertMM true now b st).state.db =
      st.db ++ [alertDataMM now (b.payload.getD "") (payloadParts b)] := by
  have hm' := hm
  simp only [isPersistedMode, payloadMode, payloadParts, Bool.or_eq_true, beq_iff_eq,
    List.get?_eq_getElem?] at hm'
  have hgd : ((jsSplit (b.payload.getD "") '|')[1]?).getD "" = "EMERGENCY" ∨
      ((jsSplit (b.payload.getD "") '|')[1]?).getD "" = "NORMAL" := by
    rcases hm' with hE | hN
    · exact Or.inl (by rw [hE]; rfl)
    · exact Or.inr (by rw [hN]; rfl)
  have hlen2 : 2 ≤ (jsSplit (b.payload.getD "") '|').length := by
    rcases hm' with hE | hN
    · exact mode_some_len b "EMERGENCY"
        (by simp [payloadMode, payloadParts, List.get?_eq_getElem?, hE])
    · exact mode_some_len b "NORMAL"
        (by simp [payloadMode, payloadParts, List.get?_eq_getElem?, hN])
  have hstat : ((((jsSplit (b.payload.getD "") '|')[1]?).getD "" == "STATUS") &&
      decide (7 ≤ (jsSplit (b.payload.getD "") '|').length)) = false := by
    rcases hgd with hE | hN
    · simp [hE]
    · simp [hN]
  have hEN : ((((jsSplit (b.payload.getD "") '|')[1]?).getD "" == "EMERGENCY") ||
      (((jsSplit (b.payload.getD "") '|')[1]?).getD "" == "NORMAL")) = true := by
    rcases hgd with hE | hN
    · simp [hE]
    · simp [hN]
  by_cases h1 : (falsy b.status || falsy b.payload) = true
  · simp [handleAlertMM, h1] at hsucc
  · by_cases h4 : 7 ≤ (jsSplit (b.payload.getD "") '|').length
    · unfold handleAlertMM at hsucc ⊢
      dsimp only at hsucc ⊢
      rw [if_neg h1, if_neg (by omega)] at hsucc ⊢
      rw [if_neg (by simp only [List.get?_eq_getElem?]; simp [hstat])] at hsucc ⊢
      rw [if_pos h4] at hsucc ⊢
      simp only [payloadParts]
      rw [if_pos (by simp only [List.get?_eq_getElem?]; simp [hEN])]
    · unfold handleAlertMM at hsucc
      dsimp only at hsucc
      rw [if_neg h1, if_neg (by omega)] at hsucc
      rw [if_neg (by simp only [List.get?_eq_getElem?]; simp [hstat])] at hsucc
      rw [if_neg h4] at hsucc
      simp at hsucc

/-- Iterated re-ingestion of a STATUS-mode payload never changes the
persisted collection. -/
theorem iterate_db_status (now : Nat) (b : Body) (st : MMState)
    (h : payloadMode b = some "STATUS") (k : Nat) :
    ((stepMM now b)^[k] st).db = st.db := by
  induction k generalizing st with
  | zero => rfl
  | succ k ih =>
    rw [Function.iterate_succ_apply, ih (stepMM now b st)]
    exact db_unchanged_nonpersisted true now b st (by rw [h]; rfl)

/-!
## Concrete example requests (used to witness the claim theorems)
-/

def bodyEmergencyMM : Body :=
  ⟨some "EMERGENCY", some "DEV1|EMERGENCY|14.6|120.9|0km/h|7sat|120,-80,9.5"⟩

def bodyStatusMM : Body :=
  ⟨some "STATUS", some "DEV1|STATUS|14.6|120.9|0km/h|7sat|120,-80,9.5"⟩

def bodyEmergencySJ : Body :=
  ⟨some "EMERGENCY", some "EMERGENCY|14.6|120.9|0km/h|7sat|120,-80,9.5"⟩

def bodyStatusSJ : Body :=
  ⟨some "STATUS", some "STATUS|14.6|120.9|0km/h|7sat|120,-80,9.5"⟩

def bodyEmergencyP0 : Body :=
  ⟨some "EMERGENCY", some "EMERGENCY|14.6|120.9|0km/h|7sat|120,-80,9.5"⟩

/-!
## Claim theorems
-/

/-- C1 (counterexample to the claim as stated): in `src/server.js`, a
persistence-store error on an EMERGENCY ingestion whose payload decodes
successfully IS the request's terminal error — the handler answers
500 "Error saving alert" and broadcasts nothing, although the same request
succeeds when the store is healthy. -/
theorem c1_persist_error_fatal_serverjs :
    (handleAlertSJ false 0 bodyEmergencySJ initSJ).resp =
      ⟨500, false, "Error saving alert"⟩ ∧
    (handleAlertSJ false 0 bodyEmergencySJ initSJ).broadcasts = [] ∧
    (handleAlertSJ true 0 bodyEmergencySJ initSJ).resp.success = true := by
  decide

/-- C1 (amended): in the `server-mongodb.js` multi-device variant, a
persistence-store error during the append is absorbed by the inner
try/catch: the response, the broadcasts and the latest-status table are
exactly those of a healthy run (so the acknowledgment does not even flag
the failure), and only the append to the persisted collection is skipped. -/
theorem c1_persist_error_soft_mongodb (now : Nat) (b : Body) (st : MMState) :
    (handleAlertMM false now b st).resp = (handleAlertMM true now b st).resp ∧
    (handleAlertMM false now b st).broadcasts = (handleAlertMM true now b st).broadcasts ∧
    (handleAlertMM false now b st).state.table = (handleAlertMM true now b st).state.table ∧
    (handleAlertMM false now b st).state.db = st.db := by
  unfold handleAlertMM
  repeat' split <;> simp_all

/-- C2: for a successfully acknowledged ingestion of the multi-device
variant, the persisted collection gains exactly the one decoded document
when the in-payload mode is EMERGENCY or NORMAL, and is unchanged for
STATUS or any unrecognized mode; re-ingesting a STATUS payload any number
of times leaves the persisted collection unchanged. -/
theorem c2_persist_policy_mongodb (now : Nat) (b : Body) (st : MMState) :
    ((handleAlertMM true now b st).resp.success = true →
      (isPersistedMode (payloadMode b) = true →
        (handleAlertMM true now b st).state.db =
          st.db ++ [alertDataMM now (b.payload.getD "") (payloadParts b)]) ∧
      (isPersistedMode (payloadMode b) = false →
        (handleAlertMM true now b st).state.db = st.db)) ∧
    (payloadMode b = some "STATUS" →
      ∀ k : Nat, ((stepMM now b)^[k] st).db = st.db) := by
  exact ⟨fun hsucc => ⟨fun hm => db_appended_persisted now b st hm hsucc,
      fun hm => db_unchanged_nonpersisted true now b st hm⟩,
    fun h k => iterate_db_status now b st h k⟩

/-- Witness for C2 at concrete inputs: one EMERGENCY ingestion from the
empty state appends exactly one document, and three repeated STATUS
ingestions leave the persisted collection empty. -/
theorem c2_persist_policy_witness :
    ((handleAlertMM true 0 bodyEmergencyMM initMM).resp.success = true ∧
      isPersistedMode (payloadMode bodyEmergencyMM) = true ∧
      (handleAlertMM true 0 bodyEmergencyMM initMM).state.db =
        initMM.db ++ [alertDataMM 0 (bodyEmergencyMM.payload.getD "")
          (payloadParts bodyEmergencyMM)]) ∧
    (payloadMode bodyStatusMM = some "STATUS" ∧
      ((stepMM 0 bodyStatusMM)^[3] initMM).db = initMM.db) :=
  ⟨⟨by decide, by decide,
     ((c2_persist_policy_mongodb 0 bodyEmergencyMM initMM).1 (by decide)).1 (by decide)⟩,
   ⟨by decide, (c2_persist_policy_mongodb 0 bodyStatusMM initMM).2 (by decide) 3⟩⟩

/-- An option whose `getD ""` equals a nonempty string is that `some`. -/
theorem getD_some_of_ne (o : Option String) (s : String) (hs : s ≠ "")
    (h : o.getD "" = s) : o = some s := by
  cases o <;> simp_all

/-- C3: whenever the multi-device variant acknowledges an ingestion, the
latest-status table entry for the payload's device is exactly the record
decoded from this message (the STATUS fast-path `statusData` or the main
branch's table record), this record is the one broadcast, and the entry is
the same whatever the prior server state was — the upsert is unconditional
and depends only on the newly ingested message. -/
theorem c3_latest_state_upsert_mongodb (saveOk : Bool) (now : Nat) (b : Body) (st : MMState)
    (h : (handleAlertMM saveOk now b st).resp.success = true) :
    ∃ rec : RecMM,
      mapGet (handleAlertMM saveOk now b st).state.table (payloadDevice b) = some rec ∧
      (handleAlertMM saveOk now b st).broadcasts = [rec] ∧
      (rec = statusDataMM now (b.payload.getD "") (payloadParts b) ∨
        rec = { alertDataMM now (b.payload.getD "") (payloadParts b) with
                  payload := some (b.payload.getD "") }) ∧
      ∀ st2 : MMState,
        mapGet (handleAlertMM saveOk now b st2).state.table (payloadDevice b) = some rec := by
  by_cases h1 : (falsy b.status || falsy b.payload) = true
  · simp [handleAlertMM, h1] at h
  · by_cases h2 : (jsSplit (b.payload.getD "") '|').length < 2
    · simp [handleAlertMM, h1, h2] at h
    · by_cases h3 : ((((jsSplit (b.payload.getD "") '|').get? 1).getD "" == "STATUS") &&
          decide (7 ≤ (jsSplit (b.payload.getD "") '|').length)) = true
      all_goals
        simp only [beq_iff_eq, Bool.and_eq_true, decide_eq_true_eq,
          List.get?_eq_getElem?] at h3
      · refine ⟨statusDataMM now (b.payload.getD "") (payloadParts b), ?_, ?_, Or.inl rfl, ?_⟩
        · simp [handleAlertMM, h1, h2, h3, payloadDevice, payloadParts, mapGet_mapSet]
        · simp [handleAlertMM, h1, h2, h3, payloadParts]
        · intro st2
          simp [handleAlertMM, h1, h2, h3, payloadDevice, payloadParts, mapGet_mapSet]
      · by_cases h4 : 7 ≤ (jsSplit (b.payload.getD "") '|').length
        · have hP : ¬((jsSplit (b.payload.getD "") '|')[1]?.getD "" = "STATUS") :=
            fun hp => h3 ⟨hp, h4⟩
          refine ⟨{ alertDataMM now (b.payload.getD "") (payloadParts b) with
              payload := some (b.payload.getD "") }, ?_, ?_, Or.inr rfl, ?_⟩
          · simp [handleAlertMM, h1, h2, hP, h4, payloadDevice, payloadParts, mapGet_mapSet]
          · simp [handleAlertMM, h1, h2, hP, h4, payloadParts, mapGet_mapSet]
          · intro st2
            simp [handleAlertMM, h1, h2, hP, h4, payloadDevice, payloadParts, mapGet_mapSet]
        · simp [handleAlertMM, h1, h2, h3, h4] at h

/-- Witness for C3: a concrete STATUS ingestion from the empty state. -/
theorem c3_latest_state_upsert_witness :
    (handleAlertMM true 0 bodyStatusMM initMM).resp.success = true ∧
    ∃ rec : RecMM,
      mapGet (handleAlertMM true 0 bodyStatusMM initMM).state.table
        (payloadDevice bodyStatusMM) = some rec ∧
      (handleAlertMM true 0 bodyStatusMM initMM).broadcasts = [rec] ∧
      (rec = statusDataMM 0 (bodyStatusMM.payload.getD "") (payloadParts bodyStatusMM) ∨
        rec = { alertDataMM 0 (bodyStatusMM.payload.getD "") (payloadParts bodyStatusMM) with
                  payload := some (bodyStatusMM.payload.getD "") }) ∧
      ∀ st2 : MMState,
        mapGet (handleAlertMM true 0 bodyStatusMM st2).state.table
          (payloadDevice bodyStatusMM) = some rec :=
  ⟨by decide, c3_latest_state_upsert_mongodb true 0 bodyStatusMM initMM (by decide)⟩

/-- C4 (counterexample to the claim as stated): in `src/server.js` the
acknowledgment message is "Alert processed" both for a STATUS ingestion
(which persists nothing) and for an EMERGENCY ingestion (which is
persisted), so the sender cannot distinguish "seen" from "recorded". -/
theorem c4_ack_uniform_serverjs :
    (handleAlertSJ true 0 bodyStatusSJ initSJ).resp.message = "Alert processed" ∧
    (handleAlertSJ true 0 bodyEmergencySJ initSJ).resp.message = "Alert processed" ∧
    (handleAlertSJ true 0 bodyStatusSJ initSJ).state.db.length = 0 ∧
    (handleAlertSJ true 0 bodyEmergencySJ initSJ).state.db.length = 1 := by
  decide

/-- C4 (amended): in the `server-mongodb.js` multi-device variant the
acknowledgment does distinguish persistence: an accepted ingestion is
answered "Alert received and saved" exactly when the in-payload mode is in
the persisted set, and otherwise "Status updated" or "Alert received". -/
theorem c4_ack_distinguishes_mongodb (now : Nat) (b : Body) (st : MMState)
    (h : (handleAlertMM true now b st).resp.success = true) :
    (isPersistedMode (payloadMode b) = true ↔
      (handleAlertMM true now b st).resp.message = "Alert received and saved") ∧
    (isPersistedMode (payloadMode b) = false →
      (handleAlertMM true now b st).resp.message = "Status updated" ∨
      (handleAlertMM true now b st).resp.message = "Alert received") := by
  by_cases h1 : (falsy b.status || falsy b.payload) = true
  · simp [handleAlertMM, h1] at h
  · by_cases h2 : (jsSplit (b.payload.getD "") '|').length < 2
    · simp [handleAlertMM, h1, h2] at h
    · by_cases h3 : ((((jsSplit (b.payload.getD "") '|').get? 1).getD "" == "STATUS") &&
          decide (7 ≤ (jsSplit (b.payload.getD "") '|').length)) = true
      all_goals
        simp only [beq_iff_eq, Bool.and_eq_true, decide_eq_true_eq,
          List.get?_eq_getElem?] at h3
      · have hm : payloadMode b = some "STATUS" := by
          have := getD_some_of_ne _ "STATUS" (by decide) h3.1
          simpa [payloadMode, payloadParts, List.get?_eq_getElem?] using this
        have hmsg : (handleAlertMM true now b st).resp.message = "Status updated" := by
          simp [handleAlertMM, h1, h2, h3]
        rw [hmsg, hm]
        exact ⟨by decide, fun _ => Or.inl rfl⟩
      · by_cases h4 : 7 ≤ (jsSplit (b.payload.getD "") '|').length
        · have hP : ¬((jsSplit (b.payload.getD "") '|')[1]?.getD "" = "STATUS") :=
            fun hp => h3 ⟨hp, h4⟩
          by_cases h5 : ((jsSplit (b.payload.getD "") '|')[1]?.getD "" = "EMERGENCY" ∨
              (jsSplit (b.payload.getD "") '|')[1]?.getD "" = "NORMAL")
          · have hmsg : (handleAlertMM true now b st).resp.message =
                "Alert received and saved" := by
              simp [handleAlertMM, h1, h2, hP, h4, h5]
            have hm : isPersistedMode (payloadMode b) = true := by
              rcases h5 with h5 | h5
              · have := getD_some_of_ne _ "EMERGENCY" (by decide) h5
                simp [isPersistedMode, payloadMode, payloadParts, List.get?_eq_getElem?, this]
              · have := getD_some_of_ne _ "NORMAL" (by decide) h5
                simp [isPersistedMode, payloadMode, payloadParts, List.get?_eq_getElem?, this]
            rw [hmsg, hm]
            exact ⟨by simp, fun hc => by simp at hc⟩
          · have hmsg : (handleAlertMM true now b st).resp.message = "Alert received" := by
              simp [handleAlertMM, h1, h2, hP, h4, h5]
            have hm : isPersistedMode (payloadMode b) = false := by
              push_neg at h5
              simp only [isPersistedMode, payloadMode, payloadParts, List.get?_eq_getElem?,
                Bool.or_eq_false_iff, beq_eq_false_iff_ne, ne_eq]
              constructor <;> intro hq <;> rw [hq] at h5 <;> simp at h5
            rw [hmsg, hm]
            exact ⟨by decide, fun _ => Or.inr rfl⟩
        · simp [handleAlertMM, h1, h2, h3, h4] at h

/-- Witness for C4: the EMERGENCY example is acknowledged
"Alert received and saved". -/
theorem c4_ack_distinguishes_witness :
    (handleAlertMM true 0 bodyEmergencyMM initMM).resp.success = true ∧
    isPersistedMode (payloadMode bodyEmergencyMM) = true ∧
    (handleAlertMM true 0 bodyEmergencyMM initMM).resp.message =
      "Alert received and saved" :=
  ⟨by decide, by decide,
   (c4_ack_distinguishes_mongodb 0 bodyEmergencyMM initMM (by decide)).1.mp (by decide)⟩

def bodyMissingId : Body := ⟨some "NORMAL", some "DEV1"⟩

def bodyInsufficient : Body := ⟨some "NORMAL", some "DEV1|NORMAL|14.6"⟩

/-- C5: `part_000` has no top-level body validation, so a submission
lacking both the mode tag and the payload string is NOT rejected with a
400 before decoding — the handler throws a `TypeError` on
`payload.split('|')` (the state is untouched and nothing is broadcast).
This exhibits the code-side failure of the claim. -/
theorem c5_missing_body_throws_part000 :
    (handleAlertP0 0 ⟨none, none⟩ initP0).out = P0Out.thrownTypeError ∧
    (handleAlertP0 0 ⟨none, none⟩ initP0).state = initP0 ∧
    (handleAlertP0 0 ⟨none, none⟩ initP0).broadcasts = [] := by
  decide

/-- C6: in the multi-device variant, a well-formed submission whose payload
has fewer than 2 pipe-fields is rejected 400 with the missing-device-ID
reason, and one with 2–6 fields is rejected 400 with the distinct
insufficient-data reason. -/
theorem c6_reject_reasons_mongodb (now : Nat) (b : Body) (st : MMState)
    (h1 : falsy b.status = false) (h2 : falsy b.payload = false) :
    ((payloadParts b).length < 2 →
      (handleAlertMM true now b st).resp =
        ⟨400, false, "Invalid payload format - missing device ID"⟩) ∧
    (2 ≤ (payloadParts b).length → (payloadParts b).length < 7 →
      (handleAlertMM true now b st).resp =
        ⟨400, false, "Invalid payload format - insufficient data"⟩) := by
  simp only [payloadParts]
  constructor
  · intro hlt
    simp [handleAlertMM, h1, h2, hlt]
  · intro hge hlt
    simp [handleAlertMM, h1, h2, Nat.not_lt.mpr hge, hlt, Nat.not_le.mpr hlt]

/-- Witness for C6: a 1-field payload gets the missing-device-ID reason and
a 3-field payload gets the insufficient-data reason. -/
theorem c6_reject_reasons_witness :
    ((payloadParts bodyMissingId).length < 2 ∧
      (handleAlertMM true 0 bodyMissingId initMM).resp =
        ⟨400, false, "Invalid payload format - missing device ID"⟩) ∧
    (2 ≤ (payloadParts bodyInsufficient).length ∧
      (payloadParts bodyInsufficient).length < 7 ∧
      (handleAlertMM true 0 bodyInsufficient initMM).resp =
        ⟨400, false, "Invalid payload format - insufficient data"⟩) :=
  ⟨⟨by decide,
    (c6_reject_reasons_mongodb 0 bodyMissingId initMM (by decide) (by decide)).1 (by decide)⟩,
   ⟨by decide, by decide,
    (c6_reject_reasons_mongodb 0 bodyInsufficient initMM (by decide) (by decide)).2
      (by decide) (by decide)⟩⟩

/-- C7: `GET /api/status` of `part_001` never returns the device table — it
evaluates the undeclared identifier `latestStatus` and throws
`ReferenceError` for every server state, contrary to the claim that every
`GET /status` request succeeds. -/
theorem c7_get_status_part001_reference_error (table : List (String × RecMM)) :
    getStatusP1 table = P1StatusOut.referenceError :=
  rfl

/-- One ingestion of the multi-device variant either leaves the persisted
collection unchanged or appends exactly the decoded `alertData` document. -/
theorem db_cases (saveOk : Bool) (now : Nat) (b : Body) (st : MMState) :
    (handleAlertMM saveOk now b st).state.db = st.db ∨
    (handleAlertMM saveOk now b st).state.db =
      st.db ++ [alertDataMM now (b.payload.getD "") (payloadParts b)] := by
  unfold handleAlertMM
  dsimp only
  repeat' split
  all_goals first | exact Or.inl rfl | exact Or.inr rfl

/-- C8 (counterexample to the claim as stated): after a successful STATUS
ingestion in the multi-device variant, the Device State Table record for
the device carries NO `rawPayload` field (the original payload survives
only in the `payload` field). -/
theorem c8_rawpayload_missing_status_mongodb :
    (handleAlertMM true 0 bodyStatusMM initMM).resp.success = true ∧
    (mapGet (handleAlertMM true 0 bodyStatusMM initMM).state.table "DEV1").map
      RecMM.rawPayload = some none ∧
    (mapGet (handleAlertMM true 0 bodyStatusMM initMM).state.table "DEV1").map
      RecMM.payload = some (some "DEV1|STATUS|14.6|120.9|0km/h|7sat|120,-80,9.5") := by
  decide

/-- C8 (amended): every document newly persisted by an ingestion carries
`rawPayload` equal byte-for-byte to the input payload; the record upserted
into the Device State Table (and broadcast) carries the input payload
byte-for-byte in its `payload` field, and additionally in `rawPayload`
except on the STATUS fast path, whose table record has no `rawPayload`
field at all. -/
theorem c8_rawpayload_retention_mongodb (saveOk : Bool) (now : Nat) (b : Body) (st : MMState)
    (h : (handleAlertMM saveOk now b st).resp.success = true) :
    (∀ e ∈ (handleAlertMM saveOk now b st).state.db,
        e ∈ st.db ∨ e.rawPayload = some (b.payload.getD "")) ∧
    ∃ rec : RecMM,
      (handleAlertMM saveOk now b st).broadcasts = [rec] ∧
      mapGet (handleAlertMM saveOk now b st).state.table (payloadDevice b) = some rec ∧
      rec.payload = some (b.payload.getD "") ∧
      (payloadMode b = some "STATUS" → rec.rawPayload = none) ∧
      (payloadMode b ≠ some "STATUS" → rec.rawPayload = some (b.payload.getD "")) := by
  by_cases h1 : (falsy b.status || falsy b.payload) = true
  · simp [handleAlertMM, h1] at h
  · by_cases h2 : (jsSplit (b.payload.getD "") '|').length < 2
    · simp [handleAlertMM, h1, h2] at h
    · by_cases h3 : ((((jsSplit (b.payload.getD "") '|').get? 1).getD "" == "STATUS") &&
          decide (7 ≤ (jsSplit (b.payload.getD "") '|').length)) = true
      all_goals
        simp only [beq_iff_eq, Bool.and_eq_true, decide_eq_true_eq,
          List.get?_eq_getElem?] at h3
      · have hm : payloadMode b = some "STATUS" := by
          have := getD_some_of_ne _ "STATUS" (by decide) h3.1
          simpa [payloadMode, payloadParts, List.get?_eq_getElem?] using this
        constructor
        · intro e he
          left
          simpa [handleAlertMM, h1, h2, h3] using he
        · refine ⟨statusDataMM now (b.payload.getD "") (payloadParts b), ?_, ?_, ?_, ?_, ?_⟩
          · simp [handleAlertMM, h1, h2, h3, payloadParts]
          · simp [handleAlertMM, h1, h2, h3, payloadDevice, payloadParts, mapGet_mapSet]
          · simp [statusDataMM]
          · intro _; simp [statusDataMM]
          · intro hne; exact absurd hm hne
      · by_cases h4 : 7 ≤ (jsSplit (b.payload.getD "") '|').length
        · have hP : ¬((jsSplit (b.payload.getD "") '|')[1]?.getD "" = "STATUS") :=
            fun hp => h3 ⟨hp, h4⟩
          have hmne : payloadMode b ≠ some "STATUS" := by
            intro hm
            apply hP
            simp only [payloadMode, payloadParts, List.get?_eq_getElem?] at hm
            rw [hm]
            rfl
          constructor
          · intro e he
            rcases db_cases saveOk now b st with hdb | hdb
            · rw [hdb] at he
              exact Or.inl he
            · rw [hdb] at he
              rcases List.mem_append.mp he with h5 | h5
              · exact Or.inl h5
              · right
                simp only [List.mem_singleton] at h5
                rw [h5]
                simp [alertDataMM, statusDataMM]
          · refine ⟨{ alertDataMM now (b.payload.getD "") (payloadParts b) with
                payload := some (b.payload.getD "") }, ?_, ?_, ?_, ?_, ?_⟩
            · simp [handleAlertMM, h1, h2, hP, h4, payloadParts, mapGet_mapSet]
            · simp [handleAlertMM, h1, h2, hP, h4, payloadDevice, payloadParts, mapGet_mapSet]
            · rfl
            · intro hm; exact absurd hm hmne
            · intro _; simp [alertDataMM, statusDataMM]
        · simp [handleAlertMM, h1, h2, h3, h4] at h

/-- Witness for C8: the concrete EMERGENCY ingestion from the empty state. -/
theorem c8_rawpayload_retention_witness :
    (handleAlertMM true 0 bodyEmergencyMM initMM).resp.success = true ∧
    ((∀ e ∈ (handleAlertMM true 0 bodyEmergencyMM initMM).state.db,
        e ∈ initMM.db ∨ e.rawPayload = some (bodyEmergencyMM.payload.getD "")) ∧
      ∃ rec : RecMM,
        (handleAlertMM true 0 bodyEmergencyMM initMM).broadcasts = [rec] ∧
        mapGet (handleAlertMM true 0 bodyEmergencyMM initMM).state.table
          (payloadDevice bodyEmergencyMM) = some rec ∧
        rec.payload = some (bodyEmergencyMM.payload.getD "") ∧
        (payloadMode bodyEmergencyMM = some "STATUS" → rec.rawPayload = none) ∧
        (payloadMode bodyEmergencyMM ≠ some "STATUS" →
          rec.rawPayload = some (bodyEmergencyMM.payload.getD ""))) :=
  ⟨by decide, c8_rawpayload_retention_mongodb true 0 bodyEmergencyMM initMM (by decide)⟩

/-- After any sequence of broadcasts following a connection, the newly
connected client (the last in the registry) holds exactly its replay
messages followed by the broadcast messages. -/
theorem foldl_wsBroadcast_last (rs : List RecMM) (cs : List WsClient) (inbox : List RecMM) :
    (rs.foldl wsBroadcast ⟨cs ++ [⟨1, inbox⟩]⟩).clients.getLast? = some ⟨1, inbox ++ rs⟩ := by
  induction rs generalizing cs inbox with
  | nil => simp
  | cons r rs ih =>
    have hstep : wsBroadcast ⟨cs ++ [⟨1, inbox⟩]⟩ r =
        ⟨(cs.map fun c => if c.readyState = 1 then { c with inbox := c.inbox ++ [r] } else c)
          ++ [⟨1, inbox ++ [r]⟩]⟩ := by
      simp [wsBroadcast]
    rw [List.foldl_cons, hstep, ih]
    simp

/-- C9: a newly registered subscriber immediately receives exactly one
message per device in the Device State Table (the table's records, in
insertion order), and after any sequence of subsequent broadcasts its
received messages are exactly that replay followed by the broadcasts — the
replay is delivered before any new broadcast. -/
theorem c9_subscriber_replay_before_broadcasts (table : List (String × RecMM))
    (st : WsState) (rs : List RecMM) :
    (rs.foldl wsBroadcast (wsConnect table st)).clients.getLast? =
      some ⟨1, table.map (fun p => p.2) ++ rs⟩ := by
  unfold wsConnect
  exact foldl_wsBroadcast_last rs st.clients (table.map fun p => p.2)

/-- C10: in the in-memory variant `part_000`, ingesting an EMERGENCY alert
from the initial state persists an event with `_id = "1"`; clearing all
alerts deletes it and resets the id counter to 1, so the next persisted
event receives the same `_id = "1"` — store-assigned ids are reused across
a clear-all. -/
theorem c10_id_counter_reuse_part000 :
    (handleAlertP0 0 bodyEmergencyP0 initP0).state.locations.map AlertP0._id = ["1"] ∧
    ((clearAlertsP0 (handleAlertP0 0 bodyEmergencyP0 initP0).state).2).locations = [] ∧
    ((clearAlertsP0 (handleAlertP0 0 bodyEmergencyP0 initP0).state).2).locationIdCounter = 1 ∧
    (handleAlertP0 1 bodyEmergencyP0
        ((clearAlertsP0 (handleAlertP0 0 bodyEmergencyP0 initP0).state).2)).state.locations.map
      AlertP0._id = ["1"] := by
  decide
